import Mathlib

/-!
Shallow embedding of `src/dispatch_bot.py`, a Telegram dispatch assistant:
PDF / photo attachments are converted to plain text (direct PDF text layer
with an OCR fallback, or direct OCR for photos), gated on a minimum viable
length, sent to a completion service, and the result relayed to the user,
with the temporary local copy of the attachment removed on every exit path.

External collaborators (pdfplumber, PyMuPDF page rasterization, pytesseract
OCR, the OpenAI completion service) are modelled as environment data
describing the outcome of each call the script makes: a library call that
can raise is an `Except String …` value whose `error` case carries the
exception text.  Attachment downloads and Telegram `reply_text` sends are
modelled as always-succeeding effects recorded in an action trace; the
filesystem namespace used for temporary copies is a characteristic
function `String → Bool`.
-/

namespace DispatchBot

/-- Python `str.strip()`: drop leading and trailing whitespace.  Defined by
structural recursion over the character list so concrete instances reduce
in the kernel. -/
def pyStrip (s : String) : String :=
  ⟨((s.data.dropWhile Char.isWhitespace).reverse.dropWhile Char.isWhitespace).reverse⟩

/-- Outcome of one pytesseract OCR call (`Image.open` + `image_to_string`):
either the recognized text or the exception message the imaging / OCR
library raised. -/
abbrev OcrOutcome := Except String String

deriving instance DecidableEq for Except

/-- Return value of `extract_text_from_image`, together with the log lines
it printed. -/
structure ImageOcrResult where
  text : String
  log : List String
  deriving DecidableEq

/-- `extract_text_from_image(image_path)`: returns `text.strip()` of the OCR
output on success; on any exception prints `OCR Error: …` and returns the
empty string.  It never raises past this boundary. -/
def extract_text_from_image (ocr : OcrOutcome) : ImageOcrResult :=
  match ocr with
  | .ok t => ⟨pyStrip t, []⟩
  | .error e => ⟨"", ["OCR Error: " ++ e]⟩

/-- One page of the PyMuPDF OCR fallback loop: either the rasterization /
temp-image write raised (which aborts the whole loop, the exception being
caught by the surrounding `try`), or the page was rendered to a temporary
image and OCR ran on it with the given outcome. -/
inductive PageRender where
  | failed (e : String)
  | image (ocr : OcrOutcome)
  deriving DecidableEq

/-- Result of `extract_text_from_pdf_with_ocr`: the accumulated text, the
0-based page indices OCR was invoked on in invocation order, and the log. -/
structure OcrRun where
  text : String
  calls : List Nat
  log : List String
  deriving DecidableEq

/-- The `for page_num in range(len(doc))` loop body of
`extract_text_from_pdf_with_ocr`, starting at page index `i`.  A raised
exception at a page aborts the loop keeping the text accumulated so far
(the `except` clause only logs). -/
def ocrLoop (i : Nat) : List PageRender → OcrRun
  | [] => ⟨"", [], []⟩
  | .failed e :: _ => ⟨"", [], ["OCR PDF Error: " ++ e]⟩
  | .image o :: rest =>
    let r := extract_text_from_image o
    let k := ocrLoop (i + 1) rest
    ⟨"\n--- Page " ++ toString (i + 1) ++ " ---\n" ++ r.text ++ "\n" ++ k.text,
      i :: k.calls, r.log ++ k.log⟩

/-- `extract_text_from_pdf_with_ocr(pdf_path)`: `fitz.open` may itself raise
(`error` case, logged, empty text returned); otherwise the page loop runs. -/
def extract_text_from_pdf_with_ocr (env : Except String (List PageRender)) : OcrRun :=
  match env with
  | .error e => ⟨"", [], ["OCR PDF Error: " ++ e]⟩
  | .ok pages => ocrLoop 0 pages

/-- Environment for `extract_text_from_pdf`: the page texts pdfplumber
yielded before any exception (`page.extract_text()` returning `None` is
`none` and contributes an empty string), the exception that ended the
pdfplumber read early if any (only logged; accumulated text is kept), and
the environment for the PyMuPDF OCR fallback. -/
structure PdfEnv where
  directPages : List (Option String)
  directErr : Option String
  ocrPages : Except String (List PageRender)

/-- Text accumulated by the pdfplumber loop of `extract_text_from_pdf`:
`text += page.extract_text() or ""` over the pages read. -/
def directConcat (env : PdfEnv) : String :=
  String.join (env.directPages.map (fun p => p.getD ""))

/-- Result of `extract_text_from_pdf`: the returned text, whether the OCR
fallback was entered, which pages OCR ran on, and the log. -/
structure PdfResult where
  text : String
  ocrInvoked : Bool
  ocrCalls : List Nat
  log : List String

/-- `extract_text_from_pdf(pdf_path)`: direct text-layer read, then
`if len(text.strip()) < 100:` replace `text` by the OCR fallback output,
and finally `return text.strip()`. -/
def extract_text_from_pdf (env : PdfEnv) : PdfResult :=
  let text := directConcat env
  let dlog := match env.directErr with
    | some e => ["PDFPlumber error: " ++ e]
    | none => []
  if (pyStrip text).length < 100 then
    let o := extract_text_from_pdf_with_ocr env.ocrPages
    ⟨pyStrip o.text, true, o.calls, dlog ++ ["⚠️ Minimal text detected. Using OCR..."] ++ o.log⟩
  else
    ⟨pyStrip text, false, [], dlog⟩

/-- The f-string prompt built by `extract_dispatch_info_with_ai(text)`:
fixed template with the extracted text interpolated verbatim at the end. -/
def dispatchPrompt (text : String) : String :=
  "\nYou are an expert logistics dispatcher bot.\n\nRead the rate confirmation text below and extract the following fields:\n- Load #\n- REF #\n- Pickup (PU): date, time, shipper name, address\n- Delivery (DEL): date, time, receiver name, address\n- Rate\n- Miles\n- Fines or Notes\n- Any other important details or numbers found in the text.\n\n\nReturn the answer in this exact format (if there is any additional info, include it):\n\nLoad# [number]\n\nREF# [reference number]\n\n⏳ PU: [pickup date + time (Earliest-Latest)]\n\n[shipper name]\n[address line 1]\n[address line 2 if any]\n\n⏳ DEL: [delivery date + time (Earliest-Latest)]\n\n[receiver name]\n[address line 1]\n[address line 2 if any]\n\n_____\n\nRate: [amount] $\nMile: [miles] miles\n\n⏰Late pick up = $250 fine❗️\n⏰Late delivery = $250 fine❗️ important to keep the business\n📝BOL/POD/Freight/Seal pictures MUST send otherwise $250 fine❗️\n🚨 No update / $250 fine❗️\n\nYour communication is really going smoothly❗️\n\nIf any field is missing, write \"Not found\" but **keep the format identical**.\n\n---\nRATE CONFIRMATION TEXT:\n" ++ text ++ "\n"

/-- Outcome of one `client.chat.completions.create` call followed by reading
`response.choices[0].message.content`: `error` is an exception raised by the
call itself, `ok none` a response carrying no content, `ok (some c)` a
response with content `c`. -/
abbrev ModelOutcome := Except String (Option String)

/-- `extract_dispatch_info_with_ai(text)`: builds the prompt and makes one
completion request.  When the call raises, the exception propagates to the
caller; when the response has no content, the script raises on `.strip()`
of `None` (again propagated); otherwise it returns the stripped content.
The `Except.error` results are exactly the executions in which the source
function raises instead of returning. -/
def extract_dispatch_info_with_ai (svc : String → ModelOutcome)
    (text : String) : Except String String :=
  match svc (dispatchPrompt text) with
  | .error e => .error e
  | .ok none => .error "AttributeError: NoneType object has no attribute strip"
  | .ok (some c) => .ok (pyStrip c)

/-- Externally visible step of an attachment handler, in execution order:
the download of the attachment to its temporary path, a `reply_text` send,
the start of text acquisition, the completion-service call (attempted,
whether or not it succeeds), and the removal of the temporary file. -/
inductive Action where
  | download (path : String)
  | send (msg : String)
  | acquire
  | modelCall
  | removeFile (path : String)
  deriving DecidableEq

/-- The local filesystem namespace used for temporary copies, as the
characteristic function of the set of existing paths. -/
abbrev FS := String → Bool

/-- `file.download_to_drive(path)`: the path exists afterwards. -/
def createFile (p : String) (fs : FS) : FS :=
  fun q => if q = p then true else fs q

/-- `os.remove(path)`: the path no longer exists afterwards. -/
def deleteFile (p : String) (fs : FS) : FS :=
  fun q => if q = p then false else fs q

/-- `handle_document`: `file_path = f"temp_{update.message.document.file_name}"`. -/
def deriveDocName (fileName : String) : String :=
  "temp_" ++ fileName

/-- `handle_photo`: `file_path = f"temp_{file.file_id}.jpg"`. -/
def derivePhotoName (fileId : String) : String :=
  "temp_" ++ fileId ++ ".jpg"

def docAckMsg : String := "📄 PDF received. Extracting info... Please wait ⏳"

def docGateMsg : String := "⚠️ Could not extract text from PDF. Please ensure the file is readable."

def photoAckMsg : String := "📷 Image received. Extracting text with OCR... Please wait ⏳"

def photoGateMsg : String := "⚠️ Could not extract text from image. Please ensure the image is clear and readable."

/-- Environment of one `handle_document` event: the declared filename of the
attachment, the PDF-library outcomes for the downloaded file, and the
completion-service behaviour. -/
structure DocEnv where
  fileName : String
  pdf : PdfEnv
  svc : String → ModelOutcome

/-- Environment of one `handle_photo` event: the transport-assigned file id
of the highest-resolution photo variant, the OCR outcome on the downloaded
image, and the completion-service behaviour. -/
structure PhotoEnv where
  fileId : String
  ocr : OcrOutcome
  svc : String → ModelOutcome

/-- What one handler run did: its action trace in execution order, and the
filesystem state after the `finally` block. -/
structure HandlerResult where
  trace : List Action
  fs : FS

/-- `handle_document(update, context)`: download to `temp_{file_name}`, send
the acknowledgment, extract text from the PDF, gate on
`not text or len(text) < 50` (sending the could-not-extract notice and
returning), otherwise call the model and relay its result, with
`except Exception as e` relaying `⚠️ Error: {e}`; the `finally` block
removes the temporary file when it exists. -/
def handle_document (env : DocEnv) (fs0 : FS) : HandlerResult :=
  let path := deriveDocName env.fileName
  let fs1 := createFile path fs0
  let text := (extract_text_from_pdf env.pdf).text
  let body : List Action :=
    if text = "" || text.length < 50 then
      [Action.send docGateMsg]
    else
      match extract_dispatch_info_with_ai env.svc text with
      | .ok result => [Action.modelCall, Action.send result]
      | .error e => [Action.modelCall, Action.send ("⚠️ Error: " ++ e)]
  let cleanup : List Action := if fs1 path then [Action.removeFile path] else []
  let fs2 := if fs1 path then deleteFile path fs1 else fs1
  ⟨[Action.download path, Action.send docAckMsg, Action.acquire] ++ body ++ cleanup, fs2⟩

/-- `handle_photo(update, context)`: download to `temp_{file_id}.jpg`, send
the acknowledgment, extract text from the image by OCR, gate on
`not text or len(text) < 50` (sending the could-not-extract notice and
returning), otherwise call the model and relay its result, with
`except Exception as e` relaying `⚠️ Error processing image: {e}`; the
`finally` block removes the temporary file when it exists. -/
def handle_photo (env : PhotoEnv) (fs0 : FS) : HandlerResult :=
  let path := derivePhotoName env.fileId
  let fs1 := createFile path fs0
  let text := (extract_text_from_image env.ocr).text
  let body : List Action :=
    if text = "" || text.length < 50 then
      [Action.send photoGateMsg]
    else
      match extract_dispatch_info_with_ai env.svc text with
      | .ok result => [Action.modelCall, Action.send result]
      | .error e => [Action.modelCall, Action.send ("⚠️ Error processing image: " ++ e)]
  let cleanup : List Action := if fs1 path then [Action.removeFile path] else []
  let fs2 := if fs1 path then deleteFile path fs1 else fs1
  ⟨[Action.download path, Action.send photoAckMsg, Action.acquire] ++ body ++ cleanup, fs2⟩

/-- Kind and deriving identifier of an attachment event, as used by the two
handlers to derive the temporary path. -/
inductive AttachmentKind where
  | document (fileName : String)
  | photo (fileId : String)

/-- The temporary path an attachment event's handler targets. -/
def derivedName : AttachmentKind → String
  | .document f => deriveDocName f
  | .photo i => derivePhotoName i

/-- An attachment event: the originating user and the attachment whose
identifier the temporary path is derived from. -/
structure Event where
  user : Nat
  att : AttachmentKind

/-- A freshly downloaded temporary file exists. -/
theorem createFile_self (p : String) (fs : FS) : createFile p fs p = true := by
  simp [createFile]

/-- A removed temporary file no longer exists. -/
theorem deleteFile_self (p : String) (fs : FS) : deleteFile p fs p = false := by
  simp [deleteFile]

/-- Claim C3 — on every exit path (successful relay, gated abort below the
viable-content threshold, and an exception from the model call), the
temporary local file created for the event does not exist once handling
completes, for both the document and the photo handler. -/
theorem C3_cleanup_invariant :
    (∀ (env : DocEnv) (fs : FS),
      (handle_document env fs).fs (deriveDocName env.fileName) = false)
    ∧ (∀ (env : PhotoEnv) (fs : FS),
      (handle_photo env fs).fs (derivePhotoName env.fileId) = false) := by
  constructor
  · intro env fs
    simp [handle_document, createFile_self, deleteFile_self]
  · intro env fs
    simp [handle_photo, createFile_self, deleteFile_self]

/-- Claim C6 — image text acquisition is a total function (it never raises
past its boundary): on OCR success it returns the stripped OCR text, and on
any OCR failure it returns the empty string (never a null value, which the
`String` return type rules out) while logging the failure. -/
theorem C6_image_ocr_total :
    (∀ t, extract_text_from_image (Except.ok t) = ⟨pyStrip t, []⟩)
    ∧ (∀ e, extract_text_from_image (Except.error e) = ⟨"", ["OCR Error: " ++ e]⟩) :=
  ⟨fun _ => rfl, fun _ => rfl⟩

/-- Claim C8 — the handler trace, and with it every relayed message, is a
function of the event environment alone: running the same event twice in
sequence (the second run starting from the filesystem state the first one
left) produces the identical trace, hence byte-identical relayed output. -/
theorem C8_idempotent :
    (∀ (env : DocEnv) (fs : FS),
      (handle_document env ((handle_document env fs).fs)).trace
        = (handle_document env fs).trace)
    ∧ (∀ (env : PhotoEnv) (fs : FS),
      (handle_photo env ((handle_photo env fs).fs)).trace
        = (handle_photo env fs).trace) := by
  constructor
  · intro env fs
    simp [handle_document, createFile_self]
  · intro env fs
    simp [handle_photo, createFile_self]

/-- Claim C9 — within one attachment event the steps occur strictly in the
order download → acknowledge → acquire text → (gate / model extraction →
relay) → cleanup: every trace starts with the download, the acknowledgment
send and the acquisition, in that order, continues with either the gate
notice or the model call followed by one relayed message, and ends with the
removal of the temporary file. -/
theorem C9_step_order :
    (∀ (env : DocEnv) (fs : FS), ∃ mid,
      (handle_document env fs).trace
          = [Action.download (deriveDocName env.fileName), Action.send docAckMsg,
              Action.acquire] ++ mid ++ [Action.removeFile (deriveDocName env.fileName)]
        ∧ (mid = [Action.send docGateMsg] ∨ ∃ m, mid = [Action.modelCall, Action.send m]))
    ∧ (∀ (env : PhotoEnv) (fs : FS), ∃ mid,
      (handle_photo env fs).trace
          = [Action.download (derivePhotoName env.fileId), Action.send photoAckMsg,
              Action.acquire] ++ mid ++ [Action.removeFile (derivePhotoName env.fileId)]
        ∧ (mid = [Action.send photoGateMsg] ∨ ∃ m, mid = [Action.modelCall, Action.send m])) := by
  constructor
  · intro env fs
    simp only [handle_document, createFile_self, if_true]
    split
    · exact ⟨[Action.send docGateMsg], by simp, Or.inl rfl⟩
    · split
      · next result heq =>
        exact ⟨[Action.modelCall, Action.send result], by simp, Or.inr ⟨result, rfl⟩⟩
      · next e heq =>
        exact ⟨[Action.modelCall, Action.send ("⚠️ Error: " ++ e)], by simp,
          Or.inr ⟨"⚠️ Error: " ++ e, rfl⟩⟩
  · intro env fs
    simp only [handle_photo, createFile_self, if_true]
    split
    · exact ⟨[Action.send photoGateMsg], by simp, Or.inl rfl⟩
    · split
      · next result heq =>
        exact ⟨[Action.modelCall, Action.send result], by simp, Or.inr ⟨result, rfl⟩⟩
      · next e heq =>
        exact ⟨[Action.modelCall, Action.send ("⚠️ Error processing image: " ++ e)], by simp,
          Or.inr ⟨"⚠️ Error processing image: " ++ e, rfl⟩⟩

/-- A PDF environment whose single direct-layer page is 100 space
characters: the direct yield has 100 characters, yet its stripped length is
0, so the script enters the OCR fallback. -/
def c1SpacesEnv : PdfEnv :=
  ⟨[some (String.mk (List.replicate 100 ' '))], none, Except.error "scanner offline"⟩

/-- A PDF environment whose single direct-layer page is 100 letters, above
the threshold also after stripping. -/
def c1LettersEnv : PdfEnv :=
  ⟨[some (String.mk (List.replicate 100 'a'))], none, Except.error "unused"⟩

/-- A PDF environment with a short direct layer, forcing the OCR fallback. -/
def c1ShortEnv : PdfEnv :=
  ⟨[some "scan"], none, Except.error "unused"⟩

/-- Claim C1 (counterexample) — a PDF whose direct text-layer extraction
yields exactly 100 characters (all spaces) still triggers the OCR fallback,
because the source gates on `len(text.strip()) < 100`, the length after
stripping, not on the length of the concatenation itself. -/
theorem C1_counterexample :
    100 ≤ (directConcat c1SpacesEnv).length
    ∧ (extract_text_from_pdf c1SpacesEnv).ocrInvoked = true := by
  constructor
  · decide
  · decide

/-- Claim C1 (amended) — for every PDF whose direct text-layer concatenation
has, after whitespace stripping, at least 100 characters, acquisition
returns that stripped concatenation and the OCR fallback is never invoked;
when the stripped concatenation has fewer than 100 characters the OCR
fallback is invoked instead. -/
theorem C1_text_layer_gate (env : PdfEnv) :
    (100 ≤ (pyStrip (directConcat env)).length →
      (extract_text_from_pdf env).text = pyStrip (directConcat env)
        ∧ (extract_text_from_pdf env).ocrInvoked = false)
    ∧ ((pyStrip (directConcat env)).length < 100 →
      (extract_text_from_pdf env).ocrInvoked = true) := by
  constructor
  · intro h
    simp only [extract_text_from_pdf]
    rw [if_neg (by omega)]
    exact ⟨rfl, rfl⟩
  · intro h
    simp only [extract_text_from_pdf]
    rw [if_pos h]

/-- Claim C1 (witness) — the amended statement evaluated on a 100-letter
text-layer PDF (no fallback) and on a 4-character one (fallback). -/
theorem C1_text_layer_gate_witness :
    (100 ≤ (pyStrip (directConcat c1LettersEnv)).length
      ∧ (extract_text_from_pdf c1LettersEnv).text = pyStrip (directConcat c1LettersEnv)
      ∧ (extract_text_from_pdf c1LettersEnv).ocrInvoked = false)
    ∧ ((pyStrip (directConcat c1ShortEnv)).length < 100
      ∧ (extract_text_from_pdf c1ShortEnv).ocrInvoked = true) :=
  ⟨⟨by decide, ((C1_text_layer_gate c1LettersEnv).1 (by decide)).1,
      ((C1_text_layer_gate c1LettersEnv).1 (by decide)).2⟩,
    ⟨by decide, (C1_text_layer_gate c1ShortEnv).2 (by decide)⟩⟩

/-- Claim C2 — for every attachment whose acquired text has fewer than 50
characters, the handler sends the could-not-extract notice and the
completion service is never invoked for that event, for both handlers. -/
theorem C2_viability_gate :
    (∀ (env : DocEnv) (fs : FS),
      (extract_text_from_pdf env.pdf).text.length < 50 →
        Action.send docGateMsg ∈ (handle_document env fs).trace
          ∧ Action.modelCall ∉ (handle_document env fs).trace)
    ∧ (∀ (env : PhotoEnv) (fs : FS),
      (extract_text_from_image env.ocr).text.length < 50 →
        Action.send photoGateMsg ∈ (handle_photo env fs).trace
          ∧ Action.modelCall ∉ (handle_photo env fs).trace) := by
  constructor
  · intro env fs h
    simp [handle_document, createFile_self, h]
  · intro env fs h
    simp [handle_photo, createFile_self, h]

/-- A document event whose PDF yields no text at all (empty text layer and
failing OCR), so the acquired text is empty. -/
def c2DocEnv : DocEnv :=
  ⟨"rc.pdf", ⟨[], none, Except.error "open failed"⟩, fun _ => Except.ok (some "unreached")⟩

/-- A photo event whose OCR yields a 10-character string, below the viable
threshold. -/
def c2PhotoEnv : PhotoEnv :=
  ⟨"AgACAgIAAx", Except.ok "Load 10 mi", fun _ => Except.ok (some "unreached")⟩

/-- The empty local filesystem. -/
def emptyFS : FS := fun _ => false

/-- Claim C2 (witness) — the gate evaluated on a document whose acquired
text is empty and a photo whose acquired text has 10 characters. -/
theorem C2_viability_gate_witness :
    ((extract_text_from_pdf c2DocEnv.pdf).text.length < 50
      ∧ Action.send docGateMsg ∈ (handle_document c2DocEnv emptyFS).trace
      ∧ Action.modelCall ∉ (handle_document c2DocEnv emptyFS).trace)
    ∧ ((extract_text_from_image c2PhotoEnv.ocr).text.length < 50
      ∧ Action.send photoGateMsg ∈ (handle_photo c2PhotoEnv emptyFS).trace
      ∧ Action.modelCall ∉ (handle_photo c2PhotoEnv emptyFS).trace) :=
  ⟨⟨by decide, (C2_viability_gate.1 c2DocEnv emptyFS (by decide)).1,
      (C2_viability_gate.1 c2DocEnv emptyFS (by decide)).2⟩,
    ⟨by decide, (C2_viability_gate.2 c2PhotoEnv emptyFS (by decide)).1,
      (C2_viability_gate.2 c2PhotoEnv emptyFS (by decide)).2⟩⟩

/-- Claim C10 — whenever the OCR fallback is triggered (stripped direct
layer below 100 characters), the direct text-layer output is discarded
entirely: PDF acquisition returns exactly the stripped OCR-fallback output,
and if the fallback itself fails at `fitz.open` the result is the empty
string even when the direct layer produced nonempty sub-threshold text. -/
theorem C10_fallback_discards_direct (env : PdfEnv)
    (h : (pyStrip (directConcat env)).length < 100) :
    (extract_text_from_pdf env).text
        = pyStrip (extract_text_from_pdf_with_ocr env.ocrPages).text
    ∧ (∀ e, env.ocrPages = Except.error e → (extract_text_from_pdf env).text = "") := by
  constructor
  · simp only [extract_text_from_pdf]
    rw [if_pos h]
  · intro e he
    simp only [extract_text_from_pdf]
    rw [if_pos h]
    simp [extract_text_from_pdf_with_ocr, he, pyStrip]

/-- A PDF whose direct layer yields a nonempty sub-threshold text and whose
OCR fallback fails at `fitz.open`. -/
def c10Env : PdfEnv := ⟨[some "abc"], none, Except.error "boom"⟩

/-- Claim C10 (witness) — on a PDF with 3 characters of direct text and a
failing OCR fallback, acquisition returns the empty string: the sub-threshold
direct text is discarded. -/
theorem C10_fallback_discards_direct_witness :
    (pyStrip (directConcat c10Env)).length < 100
    ∧ (extract_text_from_pdf c10Env).text = "" :=
  ⟨by decide, (C10_fallback_discards_direct c10Env (by decide)).2 "boom" rfl⟩

/-- Claim C4 — extraction prompting fails with a propagated error (never a
normal return) exactly when the completion-service call errors or the
service returns no content; otherwise it returns the stripped model text. -/
theorem C4_model_unavailable (svc : String → ModelOutcome) (text : String) :
    ((∃ msg, extract_dispatch_info_with_ai svc text = Except.error msg)
        ↔ (svc (dispatchPrompt text) = Except.ok none
            ∨ ∃ e, svc (dispatchPrompt text) = Except.error e))
    ∧ (∀ c, svc (dispatchPrompt text) = Except.ok (some c) →
        extract_dispatch_info_with_ai svc text = Except.ok (pyStrip c)) := by
  cases h : svc (dispatchPrompt text) with
  | error e => simp [extract_dispatch_info_with_ai, h]
  | ok c =>
    cases c with
    | none => simp [extract_dispatch_info_with_ai, h]
    | some s => simp [extract_dispatch_info_with_ai, h]

/-- A deterministic completion-service stub answering with content that has
surrounding whitespace. -/
def c4Svc : String → ModelOutcome := fun _ => Except.ok (some "  Load# 123  ")

/-- Claim C4 (witness) — on a service returning content, extraction
prompting returns normally with the stripped content. -/
theorem C4_model_unavailable_witness :
    extract_dispatch_info_with_ai c4Svc "some text" = Except.ok (pyStrip "  Load# 123  ")
    ∧ pyStrip "  Load# 123  " = "Load# 123" :=
  ⟨(C4_model_unavailable c4Svc "some text").2 "  Load# 123  " rfl, by decide⟩

/-- Spec-side description of the OCR-fallback concatenation, for the
refinement proved in claim C5: the per-page OCR texts in ascending page
order, the text of 0-based page `k` preceded by its 1-based
`--- Page (k+1) ---` marker line and followed by a newline. -/
def specOcrConcat (i : Nat) : List OcrOutcome → String
  | [] => ""
  | o :: rest =>
    "\n--- Page " ++ toString (i + 1) ++ " ---\n"
      ++ (extract_text_from_image o).text ++ "\n" ++ specOcrConcat (i + 1) rest

/-- On a document whose every page rasterizes successfully, the OCR loop
starting at page `i` produces the spec-side concatenation and invokes OCR
on the consecutive page indices starting at `i`. -/
theorem ocrLoop_map_image (i : Nat) (os : List OcrOutcome) :
    (ocrLoop i (os.map PageRender.image)).text = specOcrConcat i os
    ∧ (ocrLoop i (os.map PageRender.image)).calls = List.range' i os.length := by
  induction os generalizing i with
  | nil => exact ⟨rfl, rfl⟩
  | cons o rest ih =>
    refine ⟨?_, ?_⟩
    · simp only [List.map, ocrLoop, specOcrConcat, (ih (i + 1)).1]
    · simp only [List.map, ocrLoop, List.length_cons, List.range']
      rw [(ih (i + 1)).2]

/-- Claim C5 — for every PDF whose stripped direct text layer is below 100
characters and whose pages all rasterize, the OCR fallback runs OCR exactly
once per page in ascending page order (the invocation list is
`[0, …, n-1]`), and acquisition returns the stripped concatenation of the
per-page OCR texts each preceded by its `--- Page N ---` marker. -/
theorem C5_ocr_per_page (env : PdfEnv) (os : List OcrOutcome)
    (hocr : env.ocrPages = Except.ok (os.map PageRender.image))
    (hshort : (pyStrip (directConcat env)).length < 100) :
    (extract_text_from_pdf env).ocrCalls = List.range os.length
    ∧ (extract_text_from_pdf env).text = pyStrip (specOcrConcat 0 os) := by
  have h := ocrLoop_map_image 0 os
  constructor
  · simp only [extract_text_from_pdf]
    rw [if_pos hshort]
    show (extract_text_from_pdf_with_ocr env.ocrPages).calls = _
    rw [hocr]
    simpa [extract_text_from_pdf_with_ocr, List.range_eq_range'] using h.2
  · simp only [extract_text_from_pdf]
    rw [if_pos hshort]
    show pyStrip (extract_text_from_pdf_with_ocr env.ocrPages).text = _
    rw [hocr]
    simp [extract_text_from_pdf_with_ocr, h.1]

/-- A two-page scanned PDF: OCR reads the first page and fails on the
blurry second one. -/
def c5Os : List OcrOutcome := [Except.ok "Load 99, REF A1", Except.error "blurry page"]

/-- The PDF environment of `c5Os`: empty direct text layer, both pages
rasterize. -/
def c5Env : PdfEnv := ⟨[], none, Except.ok (c5Os.map PageRender.image)⟩

/-- Claim C5 (witness) — on the two-page scanned PDF, OCR runs on pages 0
and 1 in order and the result carries both page markers. -/
theorem C5_ocr_per_page_witness :
    (pyStrip (directConcat c5Env)).length < 100
    ∧ (extract_text_from_pdf c5Env).ocrCalls = List.range c5Os.length
    ∧ (extract_text_from_pdf c5Env).text = pyStrip (specOcrConcat 0 c5Os)
    ∧ List.range c5Os.length = [0, 1]
    ∧ pyStrip (specOcrConcat 0 c5Os)
        = "--- Page 1 ---\nLoad 99, REF A1\n\n--- Page 2 ---" :=
  ⟨by decide, (C5_ocr_per_page c5Env c5Os rfl (by decide)).1,
    (C5_ocr_per_page c5Env c5Os rfl (by decide)).2, by decide, by decide⟩

/-- Claim C7 (counterexample) — it is not true that any two attachment
events from different users derive distinct temporary names: two document
events from users 0 and 1 that both declare the filename `rate_con.pdf`
derive the same temporary path `temp_rate_con.pdf`. -/
theorem C7_counterexample :
    ¬ ∀ (e1 e2 : Event), e1.user ≠ e2.user → derivedName e1.att ≠ derivedName e2.att := by
  intro h
  exact h ⟨0, .document "rate_con.pdf"⟩ ⟨1, .document "rate_con.pdf"⟩ (by decide) rfl

/-- Claim C7 (amended) — temporary names are derived injectively from the
attachment identifier: two document events derive the same name exactly
when their declared filenames coincide, and two photo events exactly when
their transport file identifiers coincide.  Distinct users alone do not
guarantee distinct names. -/
theorem C7_name_injective (f g : String) :
    (deriveDocName f = deriveDocName g ↔ f = g)
    ∧ (derivePhotoName f = derivePhotoName g ↔ f = g) := by
  constructor
  · simp [deriveDocName, String.ext_iff]
  · simp [derivePhotoName, String.ext_iff]

end DispatchBot
